import Mathlib

/-!
Shallow embedding of the OpenPecha search API dispatcher (src/api.py).

The source is a FastAPI service exposing a unified search endpoint over a
Milvus collection with four modes: hybrid, bm25, semantic and exact.  The
embedding below models the pure request-construction, dispatch, validation
and result-normalisation logic of that file.  The two external
collaborators are passed in explicitly:

* `embed`  : the Gemini embedding provider (`get_embedding`), a function
  from query text to a vector of numbers;
* `store`  : the Milvus client, a function from a fully built backend call
  to the raw result batches it returns.

Each internal search function returns, besides the response, a `Trace`
recording which embedding-provider calls and which backend calls were
made, so that claims about "before any external call" and "exactly one
embedding call" can be stated.  Python floats are modelled as rationals;
Python truthiness of optional strings (`if filter_expr:`) is modelled by
`truthyOpt`, which treats `None` and the empty string as falsy.
-/

namespace OpenPecha

/-- Scores and vector components; Python floats modelled as rationals. -/
abbrev Score := Rat

/-- Data payload of a backend search: either raw query text (sparse/BM25
fields) or an embedding vector (dense field). -/
inductive SearchData where
  | text (q : String)
  | vector (v : List Score)
deriving DecidableEq, Repr

/-- Embedding of `pymilvus.AnnSearchRequest` as built in
`perform_hybrid_search` (src/api.py lines 330-349): `data`, `anns_field`,
`param` and `limit`, plus the optional `expr` key set only when a filter
expression is present. -/
structure AnnSearchRequest where
  data : SearchData
  anns_field : String
  param : List (String × Score)
  limit : Nat
  expr : Option String
deriving DecidableEq, Repr

/-- Keyword arguments of a plain `milvus_client.search` call as assembled
in `perform_bm25_search`, `perform_semantic_search` and
`perform_exact_search`.  The `filter` key is `none` when the Python dict
carries no "filter" entry. -/
structure SearchParams where
  collection_name : String
  data : SearchData
  anns_field : String
  limit : Nat
  output_fields : List String
  filter : Option String
deriving DecidableEq, Repr

/-- One call issued to the Milvus client: either `search(**params)` or
`hybrid_search(collection_name, reqs, ranker, limit, output_fields)`. -/
inductive BackendCall where
  | search (p : SearchParams)
  | hybridSearch (collection_name : String) (reqs : List AnnSearchRequest)
      (ranker : String) (limit : Nat) (output_fields : List String)
deriving DecidableEq, Repr

/-- Output-field list requested by a backend call. -/
def BackendCall.outputFields : BackendCall → List String
  | .search p => p.output_fields
  | .hybridSearch _ _ _ _ of => of

/-- Filter expression carried by a backend call (`hybrid_search` has no
top-level filter argument; its per-request `expr` keys live in the
`AnnSearchRequest`s). -/
def BackendCall.callFilter : BackendCall → Option String
  | .search p => p.filter
  | .hybridSearch _ _ _ _ _ => none

/-- Raw hit record returned by the store.  Each field mirrors a
`hit.get(...)` access in `format_results`: `id` via `hit.get('id')`
(absent gives `None`), `distance` via `hit.get('distance', 0.0)` and
`entity` via `hit.get('entity', \x7b\x7d)`. -/
structure Hit where
  id : Option String
  distance : Option Score
  entity : Option (List (String × String))
deriving DecidableEq, Repr

/-- Pydantic model `SearchResult` (src/api.py lines 103-106). -/
structure SearchResult where
  id : Option String
  distance : Score
  entity : List (String × String)
deriving DecidableEq, Repr

/-- Pydantic model `SearchResponse` (src/api.py lines 109-113). -/
structure SearchResponse where
  query : String
  search_type : String
  results : List SearchResult
  count : Nat
deriving DecidableEq, Repr

/-- Pydantic model `SearchFilter` (src/api.py lines 56-57). -/
structure SearchFilter where
  title : Option String
deriving DecidableEq, Repr

/-- Pydantic model `SearchRequest` (src/api.py lines 60-65); the
declared schema constraints (`min_length=1` on `query`, `ge=1, le=100`
on `limit`) are enforced by `validate_post_request` below, which models
the framework validation layer in front of the POST handler. -/
structure SearchRequest where
  query : String
  search_type : String
  limit : Nat
  return_text : Bool
  filter : Option SearchFilter
deriving DecidableEq, Repr

/-- HTTPException payload raised by the handlers. -/
structure HTTPError where
  status : Nat
  detail : String
deriving DecidableEq, Repr

/-- Record of the external calls made while handling one request. -/
structure Trace where
  embedCalls : List String
  backendCalls : List BackendCall
deriving DecidableEq, Repr

/-- Empty trace: no embedding-provider call, no backend call. -/
def Trace.empty : Trace := ⟨[], []⟩

/-- Outcome of one HTTP request: a successful `SearchResponse`, a
framework (FastAPI/Pydantic) request-validation rejection, or an
`HTTPException` raised by the handler body. -/
inductive ApiResponse where
  | ok (r : SearchResponse)
  | validationError
  | httpError (e : HTTPError)
deriving DecidableEq, Repr

/-- Whether the response is a successful search response. -/
def ApiResponse.isOk : ApiResponse → Bool
  | .ok _ => true
  | _ => false

/-- Echoed `search_type` of a successful response, `none` otherwise. -/
def ApiResponse.respSearchType : ApiResponse → Option String
  | .ok r => some r.search_type
  | _ => none

/-- Python truthiness of an optional string: `None` and `""` are falsy.
Used wherever the source tests `if filter_expr:` or `if title_filter:`
before attaching a filter clause. -/
def truthyOpt : Option String → Option String
  | none => none
  | some s => if s.isEmpty then none else some s

/-- Collection name: `os.getenv("MILVUS_COLLECTION_NAME",
"test_kangyur_tengyur")`, modelled by its default value (src/api.py
line 17). -/
def MILVUS_COLLECTION_NAME : String := "test_kangyur_tengyur"

/-- Python `str.lower()`, modelled character-wise. -/
def pyLower (s : String) : String := ⟨s.data.map Char.toLower⟩

/-- Single-quote character (code point 39). -/
def squoteChar : Char := Char.ofNat 39

/-- Backslash character (code point 92). -/
def bsChar : Char := Char.ofNat 92

/-- Single-quote as a one-character string. -/
def squote : String := String.singleton squoteChar

/-- Backslash as a one-character string. -/
def bsStr : String := String.singleton bsChar

/-- Embedding of `build_filter_expression` (src/api.py lines 173-182).
A `None` filter object returns `None` (`if not filter_obj:`; a present
Pydantic model instance is always truthy, even with all fields unset).
The `title` condition is appended only when `filter_obj.title` is truthy,
i.e. set and non-empty; conditions are joined with " && ", and an empty
condition list yields `None`. -/
def build_filter_expression : Option SearchFilter → Option String
  | none => none
  | some f =>
      let conditions : List String :=
        match f.title with
        | some t => if t.isEmpty then [] else ["title == \"" ++ t ++ "\""]
        | none => []
      if conditions.isEmpty then none
      else some (String.intercalate " && " conditions)

/-- Per-hit normalisation step inside `format_results` (src/api.py lines
191-196): `hit.get('id')`, `hit.get('distance', 0.0)`,
`hit.get('entity', \x7b\x7d)`. -/
def formatHit (hit : Hit) : SearchResult :=
  { id := hit.id
    distance := hit.distance.getD 0
    entity := hit.entity.getD [] }

/-- Embedding of `format_results` (src/api.py lines 186-203): the nested
loop over result batches flattens all hits, in order, into one list, and
`count` is set to the length of that flattened list. -/
def format_results (results : List (List Hit)) (query : String)
    (search_type : String) : SearchResponse :=
  { query := query
    search_type := search_type
    results := (results.map (List.map formatHit)).flatten
    count := ((results.map (List.map formatHit)).flatten).length }

/-- Character-level embedding of the escaping step
`query.replace("'", "\\'")` in `perform_exact_search` (src/api.py line
419): the pattern is the single character U+0027, so the replacement acts
independently on each character, mapping a single quote to
backslash-quote and leaving every other character unchanged. -/
def escapeChar (c : Char) : List Char :=
  if c == squoteChar then [bsChar, squoteChar] else [c]

/-- Escaped query used inside the PHRASE-MATCH literal (src/api.py line
419). -/
def escape_query (q : String) : String := ⟨q.data.flatMap escapeChar⟩

/-- PHRASE-MATCH predicate built by `perform_exact_search` (src/api.py
line 422). -/
def phrase_filter (query : String) : String :=
  "PHRASE_MATCH(text, " ++ squote ++ escape_query query ++ squote ++ ")"

/-- Final filter of `perform_exact_search` (src/api.py lines 425-428):
the phrase predicate, AND-combined with the compiled filter expression
when one is present (Python truthiness on `filter_expr`). -/
def exact_final_filter (query : String) (filter_expr : Option String) : String :=
  match truthyOpt filter_expr with
  | some f => phrase_filter query ++ " && " ++ f
  | none => phrase_filter query

/-- First `AnnSearchRequest` of `perform_hybrid_search` (src/api.py lines
330-338): BM25 over the sparse field with the raw query text; the `expr`
key is attached only when `filter_expr` is truthy. -/
def hybrid_request_1 (query : String) (limit : Nat)
    (filter_expr : Option String) : AnnSearchRequest :=
  { data := .text query
    anns_field := "sparce_vector"
    param := []
    limit := limit
    expr := truthyOpt filter_expr }

/-- Second `AnnSearchRequest` of `perform_hybrid_search` (src/api.py
lines 341-349): dense search with the embedding vector. -/
def hybrid_request_2 (embedding : List Score) (limit : Nat)
    (filter_expr : Option String) : AnnSearchRequest :=
  { data := .vector embedding
    anns_field := "dense_vector"
    param := [("drop_ratio_search", (0.2 : Score))]
    limit := limit
    expr := truthyOpt filter_expr }

/-- Backend call issued by `perform_hybrid_search` (src/api.py lines
355-362): `milvus_client.hybrid_search` with both requests, an RRF
ranker, the limit and the output fields. -/
def hybrid_search_call (query : String) (embedding : List Score)
    (limit : Nat) (filter_expr : Option String) (return_text : Bool) :
    BackendCall :=
  .hybridSearch MILVUS_COLLECTION_NAME
    [hybrid_request_1 query limit filter_expr,
     hybrid_request_2 embedding limit filter_expr]
    "RRF" limit (if return_text then ["text"] else [])

/-- Embedding of `perform_hybrid_search` (src/api.py lines 324-364).
The trace records the single `get_embedding` call and the single
`hybrid_search` backend call. -/
def perform_hybrid_search (embed : String → List Score)
    (store : BackendCall → List (List Hit)) (query : String) (limit : Nat)
    (filter_expr : Option String) (return_text : Bool) :
    Trace × SearchResponse :=
  let embedding := embed query
  let call := hybrid_search_call query embedding limit filter_expr return_text
  (⟨[query], [call]⟩, format_results (store call) query "hybrid")

/-- Search parameters of `perform_bm25_search` (src/api.py lines 373-382):
sparse-field search with the raw query; the `filter` key is attached only
when `filter_expr` is truthy. -/
def bm25_search_params (query : String) (limit : Nat)
    (filter_expr : Option String) (return_text : Bool) : SearchParams :=
  { collection_name := MILVUS_COLLECTION_NAME
    data := .text query
    anns_field := "sparce_vector"
    limit := limit
    output_fields := if return_text then ["text"] else []
    filter := truthyOpt filter_expr }

/-- Embedding of `perform_bm25_search` (src/api.py lines 367-387): no
embedding-provider call, one backend call. -/
def perform_bm25_search (store : BackendCall → List (List Hit))
    (query : String) (limit : Nat) (filter_expr : Option String)
    (return_text : Bool) : Trace × SearchResponse :=
  let call := BackendCall.search (bm25_search_params query limit filter_expr return_text)
  (⟨[], [call]⟩, format_results (store call) query "bm25")

/-- Search parameters of `perform_semantic_search` (src/api.py lines
398-408): dense-field search with the embedding vector. -/
def semantic_search_params (embedding : List Score) (limit : Nat)
    (filter_expr : Option String) (return_text : Bool) : SearchParams :=
  { collection_name := MILVUS_COLLECTION_NAME
    data := .vector embedding
    anns_field := "dense_vector"
    limit := limit
    output_fields := if return_text then ["text"] else []
    filter := truthyOpt filter_expr }

/-- Embedding of `perform_semantic_search` (src/api.py lines 390-413):
one `get_embedding` call, one backend call. -/
def perform_semantic_search (embed : String → List Score)
    (store : BackendCall → List (List Hit)) (query : String) (limit : Nat)
    (filter_expr : Option String) (return_text : Bool) :
    Trace × SearchResponse :=
  let call := BackendCall.search
    (semantic_search_params (embed query) limit filter_expr return_text)
  (⟨[query], [call]⟩, format_results (store call) query "semantic")

/-- Search parameters of `perform_exact_search` (src/api.py lines
434-441): sparse-field search whose `data` is the RAW query text and
whose `filter` key is always present, holding the final PHRASE-MATCH
filter built from the ESCAPED query. -/
def exact_search_params (query : String) (limit : Nat)
    (filter_expr : Option String) (return_text : Bool) : SearchParams :=
  { collection_name := MILVUS_COLLECTION_NAME
    data := .text query
    anns_field := "sparce_vector"
    limit := limit
    output_fields := if return_text then ["text"] else []
    filter := some (exact_final_filter query filter_expr) }

/-- Embedding of `perform_exact_search` (src/api.py lines 416-446): no
embedding-provider call, one backend call. -/
def perform_exact_search (store : BackendCall → List (List Hit))
    (query : String) (limit : Nat) (filter_expr : Option String)
    (return_text : Bool) : Trace × SearchResponse :=
  let call := BackendCall.search (exact_search_params query limit filter_expr return_text)
  (⟨[], [call]⟩, format_results (store call) query "exact")

/-- The four valid search types (src/api.py line 260). -/
def valid_types : List String := ["hybrid", "bm25", "semantic", "exact"]

/-- Detail string of the invalid-mode HTTPException (src/api.py lines
262-265). -/
def invalid_mode_detail : String :=
  "Invalid search_type. Must be one of: " ++ String.intercalate ", " valid_types

/-- Filter expression built by the GET handler from `title_filter`
(src/api.py lines 268-270): set only when `title_filter` is truthy. -/
def get_filter_expr : Option String → Option String
  | none => none
  | some t => if t.isEmpty then none else some ("title == \"" ++ t ++ "\"")

/-- Wrap an internal search outcome as a successful API response. -/
def mkOk (tr : Trace × SearchResponse) : Trace × ApiResponse :=
  (tr.1, .ok tr.2)

/-- Embedding of the GET handler body `unified_search` (src/api.py lines
225-285): lower-case the requested type, reject invalid types with a 400
HTTPException before any collaborator call, build the filter expression
from `title_filter`, then dispatch to the mode-specific search function.
The final branch is unreachable after validation; in Python the handler
would fall off the end returning `None`, which FastAPI surfaces as a
server error, modelled here as a 500 response with an empty trace. -/
def unified_search (embed : String → List Score)
    (store : BackendCall → List (List Hit)) (query : String)
    (search_type : String) (limit : Nat) (return_text : Bool)
    (title_filter : Option String) : Trace × ApiResponse :=
  if pyLower search_type ∈ valid_types then
    let filter_expr := get_filter_expr title_filter
    if pyLower search_type == "hybrid" then
      mkOk (perform_hybrid_search embed store query limit filter_expr return_text)
    else if pyLower search_type == "bm25" then
      mkOk (perform_bm25_search store query limit filter_expr return_text)
    else if pyLower search_type == "semantic" then
      mkOk (perform_semantic_search embed store query limit filter_expr return_text)
    else if pyLower search_type == "exact" then
      mkOk (perform_exact_search store query limit filter_expr return_text)
    else
      (Trace.empty, .httpError ⟨500, "unreachable after mode validation"⟩)
  else
    (Trace.empty, .httpError ⟨400, invalid_mode_detail⟩)

/-- Embedding of the POST handler body `unified_search_post` (src/api.py
lines 288-320): identical dispatch, with the filter expression compiled
from the structured `req.filter` by `build_filter_expression`. -/
def unified_search_post (embed : String → List Score)
    (store : BackendCall → List (List Hit)) (req : SearchRequest) :
    Trace × ApiResponse :=
  if pyLower req.search_type ∈ valid_types then
    let filter_expr := build_filter_expression req.filter
    if pyLower req.search_type == "hybrid" then
      mkOk (perform_hybrid_search embed store req.query req.limit filter_expr req.return_text)
    else if pyLower req.search_type == "bm25" then
      mkOk (perform_bm25_search store req.query req.limit filter_expr req.return_text)
    else if pyLower req.search_type == "semantic" then
      mkOk (perform_semantic_search embed store req.query req.limit filter_expr req.return_text)
    else if pyLower req.search_type == "exact" then
      mkOk (perform_exact_search store req.query req.limit filter_expr req.return_text)
    else
      (Trace.empty, .httpError ⟨500, "unreachable after mode validation"⟩)
  else
    (Trace.empty, .httpError ⟨400, invalid_mode_detail⟩)

/-- FastAPI parameter validation of the GET endpoint (src/api.py lines
227-231): `limit` is declared `ge=1, le=100`; `query` is required but has
NO minimum-length constraint, so an empty query string passes. -/
def validate_get_params (limit : Nat) : Bool :=
  decide (1 ≤ limit) && decide (limit ≤ 100)

/-- Pydantic validation of the POST request model (src/api.py lines
60-63): `query` has `min_length=1` and `limit` has `ge=1, le=100`. -/
def validate_post_request (req : SearchRequest) : Bool :=
  decide (1 ≤ req.query.length) && decide (1 ≤ req.limit) && decide (req.limit ≤ 100)

/-- Full GET request pipeline: framework parameter validation, then the
handler body.  A validation failure rejects the request before the
handler runs, with no external call. -/
def handle_get (embed : String → List Score)
    (store : BackendCall → List (List Hit)) (query : String)
    (search_type : String) (limit : Nat) (return_text : Bool)
    (title_filter : Option String) : Trace × ApiResponse :=
  if validate_get_params limit then
    unified_search embed store query search_type limit return_text title_filter
  else
    (Trace.empty, .validationError)

/-- Full POST request pipeline: Pydantic schema validation, then the
handler body. -/
def handle_post (embed : String → List Score)
    (store : BackendCall → List (List Hit)) (req : SearchRequest) :
    Trace × ApiResponse :=
  if validate_post_request req then
    unified_search_post embed store req
  else
    (Trace.empty, .validationError)

/-- Trivial embedding provider used to evaluate closed instances. -/
def embed0 : String → List Score := fun _ => []

/-- Trivial backend store used to evaluate closed instances: returns no
hits for any call. -/
def store0 : BackendCall → List (List Hit) := fun _ => []

/-- Count invariant of a response: a successful response reports a count
equal to the length of its result list; error responses satisfy it
vacuously. -/
def countInvariant : ApiResponse → Bool
  | .ok r => r.count == r.results.length
  | _ => true

/-- Scanner stating that every single-quote character of a character list
is immediately preceded by a backslash; `prev` is the previous character,
if any. -/
def noBareQuoteAux : Option Char → List Char → Bool
  | _, [] => true
  | prev, c :: rest =>
      (!(c == squoteChar) || (prev == some bsChar)) && noBareQuoteAux (some c) rest

/-- Every single quote in the string is immediately preceded by a
backslash, so no quote can terminate a quote-delimited literal early. -/
def noBareQuote (s : String) : Bool := noBareQuoteAux none s.data

/-- Escaping a character list leaves no bare single quote: each block
produced by `escapeChar` is either a non-quote character or the pair
backslash-quote. -/
theorem noBareQuoteAux_flatMap (l : List Char) :
    ∀ prev : Option Char, noBareQuoteAux prev (l.flatMap escapeChar) = true := by
  induction l with
  | nil => intro prev; rfl
  | cons c l ih =>
      intro prev
      by_cases h : c = squoteChar
      · subst h
        rw [List.flatMap_cons, show escapeChar squoteChar = [bsChar, squoteChar] from rfl,
          List.cons_append, List.cons_append, List.nil_append]
        simp only [noBareQuoteAux, ih (some squoteChar)]
        simp [show (bsChar == squoteChar) = false from by decide]
      · have hb : (c == squoteChar) = false := by simp [h]
        rw [List.flatMap_cons]
        have he : escapeChar c = [c] := by simp [escapeChar, hb]
        rw [he, List.cons_append, List.nil_append]
        simp only [noBareQuoteAux, ih (some c)]
        simp [hb]

/-- Intercalating a one-element list is the element itself. -/
theorem intercalate_singleton (sep a : String) : String.intercalate sep [a] = a := by
  simp [String.intercalate, String.intercalate.go]

/-- C1, counterexample: on the GET query-parameter path the empty query
is NOT rejected — `query` is declared without a minimum length there, so
an empty-query bm25 request passes validation, reaches the backend store
(one backend call is made) and returns a successful response.  The claim
that both caller entry points reject an empty query before any backend
call is therefore false. -/
theorem C1_counterexample :
    (handle_get embed0 store0 "" "bm25" 10 true none).1.backendCalls.length = 1 ∧
    (handle_get embed0 store0 "" "bm25" 10 true none).2.isOk = true ∧
    (handle_get embed0 store0 "" "semantic" 10 true none).1.embedCalls = [""] := by
  refine ⟨by decide, by decide, by decide⟩

/-- C1, amended: on the POST JSON-body path, a request with an empty
query string is rejected by the request-schema validation (min length 1)
before the handler runs, for every search type, with no
embedding-provider call and no backend call made. -/
theorem C1_post_empty_query_rejected (embed : String → List Score)
    (store : BackendCall → List (List Hit)) (st : String) (limit : Nat)
    (rt : Bool) (fl : Option SearchFilter) :
    handle_post embed store ⟨"", st, limit, rt, fl⟩ = (Trace.empty, .validationError) := by
  simp [handle_post, validate_post_request]

/-- C2: in exact mode the compiled backend predicate is the PHRASE-MATCH
clause over the quote-escaped query; with no (or a falsy) compiled filter
it is that clause alone, with a non-empty compiled filter it is the
clause AND-conjoined with the filter; the end-to-end example request
(query "test phrase", exact, limit 10, filter title "Chapter1") compiles
to the expected predicate; and in the escaped query every single-quote
character is immediately preceded by a backslash, so it cannot terminate
the phrase literal early. -/
theorem C2_exact_phrase_predicate :
    (∀ (q : String) (limit : Nat) (rt : Bool),
      (exact_search_params q limit none rt).filter = some (phrase_filter q)) ∧
    (∀ (q f : String) (limit : Nat) (rt : Bool), f ≠ "" →
      (exact_search_params q limit (some f) rt).filter
        = some (phrase_filter q ++ " && " ++ f)) ∧
    ((handle_post embed0 store0
        ⟨"test phrase", "exact", 10, true, some ⟨some "Chapter1"⟩⟩).1.backendCalls.map
          BackendCall.callFilter)
      = [some ("PHRASE_MATCH(text, " ++ squote ++ "test phrase" ++ squote
          ++ ") && title == \"Chapter1\"")] ∧
    (∀ q : String, noBareQuote (escape_query q) = true) := by
  refine ⟨fun q limit rt => rfl, fun q f limit rt h => ?_, by decide, fun q => ?_⟩
  · simp [exact_search_params, exact_final_filter, truthyOpt, String.isEmpty_iff, h]
  · simpa [noBareQuote, escape_query] using noBareQuoteAux_flatMap q.data none

/-- C2, witness: the AND-conjoined branch evaluated at a concrete query
and a concrete non-empty compiled filter. -/
theorem C2_witness :
    ("title == \"Chapter1\"" ≠ "") ∧
    (exact_search_params "test phrase" 10 (some "title == \"Chapter1\"") true).filter
      = some (phrase_filter "test phrase" ++ " && " ++ "title == \"Chapter1\"") :=
  ⟨by decide,
    C2_exact_phrase_predicate.2.1 "test phrase" "title == \"Chapter1\"" 10 true (by decide)⟩

/-- C3, counterexample: a Filter whose title field is set to the EMPTY
string compiles to no expression at all (the source tests the value for
Python truthiness, and the empty string is falsy), not to the equality
expression the claim promises for every set title. -/
theorem C3_counterexample :
    build_filter_expression (some ⟨some ""⟩) = none ∧
    build_filter_expression (some ⟨some ""⟩) ≠ some "title == \"\"" := by
  refine ⟨by decide, by decide⟩

/-- C3, amended: for every Filter whose title is set to a NON-EMPTY
string X, compilation yields the expression title == "X"; an absent
Filter, a Filter with no set fields, or a title set to the empty string
yields no expression; and with an absent compiled expression no mode
attaches a compiled-filter clause to its backend call (bm25 and semantic
carry no filter key, neither hybrid sub-request carries an expr key, and
exact uses the phrase predicate alone, with no conjunction). -/
theorem C3_filter_compilation (X : String) (hX : X ≠ "") :
    build_filter_expression (some ⟨some X⟩) = some ("title == \"" ++ X ++ "\"") ∧
    build_filter_expression none = none ∧
    build_filter_expression (some ⟨none⟩) = none ∧
    (∀ (q : String) (limit : Nat) (rt : Bool),
      (bm25_search_params q limit none rt).filter = none) ∧
    (∀ (e : List Score) (limit : Nat) (rt : Bool),
      (semantic_search_params e limit none rt).filter = none) ∧
    (∀ (q : String) (limit : Nat), (hybrid_request_1 q limit none).expr = none) ∧
    (∀ (e : List Score) (limit : Nat), (hybrid_request_2 e limit none).expr = none) ∧
    (∀ (q : String) (limit : Nat) (rt : Bool),
      (exact_search_params q limit none rt).filter = some (phrase_filter q)) := by
  refine ⟨?_, rfl, rfl, fun q limit rt => rfl, fun e limit rt => rfl,
    fun q limit => rfl, fun e limit => rfl, fun q limit rt => rfl⟩
  simp [build_filter_expression, String.isEmpty_iff, hX, intercalate_singleton]

/-- C3, witness: the non-empty-title branch evaluated at a concrete
title. -/
theorem C3_witness :
    ("Chapter1" ≠ "") ∧
    build_filter_expression (some ⟨some "Chapter1"⟩)
      = some ("title == \"" ++ "Chapter1" ++ "\"") :=
  ⟨by decide, (C3_filter_compilation "Chapter1" (by decide)).1⟩

/-- C4: for every dispatched query, on both entry points and for every
limit, the embedding provider is called exactly once in hybrid and
semantic modes and never in bm25 and exact modes. -/
theorem C4_embedding_call_counts (embed : String → List Score)
    (store : BackendCall → List (List Hit)) (q : String) (limit : Nat)
    (rt : Bool) (tf : Option String) (fl : Option SearchFilter) :
    (unified_search embed store q "hybrid" limit rt tf).1.embedCalls.length = 1 ∧
    (unified_search embed store q "semantic" limit rt tf).1.embedCalls.length = 1 ∧
    (unified_search embed store q "bm25" limit rt tf).1.embedCalls.length = 0 ∧
    (unified_search embed store q "exact" limit rt tf).1.embedCalls.length = 0 ∧
    (unified_search_post embed store ⟨q, "hybrid", limit, rt, fl⟩).1.embedCalls.length = 1 ∧
    (unified_search_post embed store ⟨q, "semantic", limit, rt, fl⟩).1.embedCalls.length = 1 ∧
    (unified_search_post embed store ⟨q, "bm25", limit, rt, fl⟩).1.embedCalls.length = 0 ∧
    (unified_search_post embed store ⟨q, "exact", limit, rt, fl⟩).1.embedCalls.length = 0 :=
  ⟨rfl, rfl, rfl, rfl, rfl, rfl, rfl, rfl⟩

/-- C5: in every returned response the count field equals the length of
the flattened result sequence: `format_results` sets count to the length
of the flattened batch list, and every successful response produced by
either full request pipeline satisfies the count invariant. -/
theorem C5_count_invariant :
    (∀ (rs : List (List Hit)) (q st : String),
      (format_results rs q st).count = (format_results rs q st).results.length) ∧
    (∀ (rs : List (List Hit)) (q st : String),
      (format_results rs q st).count = rs.flatten.length) ∧
    (∀ (embed : String → List Score) (store : BackendCall → List (List Hit))
      (q st : String) (limit : Nat) (rt : Bool) (tf : Option String),
      countInvariant (handle_get embed store q st limit rt tf).2 = true) ∧
    (∀ (embed : String → List Score) (store : BackendCall → List (List Hit))
      (req : SearchRequest),
      countInvariant (handle_post embed store req).2 = true) := by
  refine ⟨fun rs q st => rfl, fun rs q st => ?_,
    fun embed store q st limit rt tf => ?_, fun embed store req => ?_⟩
  · simp [format_results, List.length_flatten, List.map_map, Function.comp_def]
  · simp only [handle_get, unified_search, mkOk, apply_ite Prod.snd, apply_ite countInvariant]
    simp [countInvariant, perform_hybrid_search, perform_bm25_search,
      perform_semantic_search, perform_exact_search, format_results, Trace.empty]
  · simp only [handle_post, unified_search_post, mkOk, apply_ite Prod.snd,
      apply_ite countInvariant]
    simp [countInvariant, perform_hybrid_search, perform_bm25_search,
      perform_semantic_search, perform_exact_search, format_results, Trace.empty]

/-- C6: a request whose search type does not lower-case to one of the
four supported modes is rejected by both handlers with a 400 validation
error whose detail names the four valid modes, with an empty trace — no
embedding-provider call and no backend call. -/
theorem C6_invalid_mode_rejected (embed : String → List Score)
    (store : BackendCall → List (List Hit)) (q st : String) (limit : Nat)
    (rt : Bool) (tf : Option String) (fl : Option SearchFilter)
    (h : pyLower st ∉ valid_types) :
    unified_search embed store q st limit rt tf
      = (Trace.empty, .httpError ⟨400, invalid_mode_detail⟩) ∧
    unified_search_post embed store ⟨q, st, limit, rt, fl⟩
      = (Trace.empty, .httpError ⟨400, invalid_mode_detail⟩) ∧
    invalid_mode_detail = "Invalid search_type. Must be one of: hybrid, bm25, semantic, exact" := by
  refine ⟨?_, ?_, by decide⟩
  · simp [unified_search, h]
  · simp [unified_search_post, h]

/-- C6, witness: the invalid mode "foo" evaluated on the GET handler. -/
theorem C6_witness :
    (pyLower "foo" ∉ valid_types) ∧
    unified_search embed0 store0 "q" "foo" 10 true none
      = (Trace.empty, .httpError ⟨400, invalid_mode_detail⟩) :=
  ⟨by decide, (C6_invalid_mode_rejected embed0 store0 "q" "foo" 10 true none none (by decide)).1⟩

/-- C7: with return-text false every mode requests an empty output-field
list, and with return-text true every mode requests exactly the text
field; the normalizer passes each backend entity map through unchanged
(defaulting an absent map to the empty map), so the normalized field maps
are exactly what the backend returned for the requested fields. -/
theorem C7_return_text_output_fields :
    (∀ (q : String) (limit : Nat) (fe : Option String),
      (bm25_search_params q limit fe false).output_fields = [] ∧
      (bm25_search_params q limit fe true).output_fields = ["text"]) ∧
    (∀ (e : List Score) (limit : Nat) (fe : Option String),
      (semantic_search_params e limit fe false).output_fields = [] ∧
      (semantic_search_params e limit fe true).output_fields = ["text"]) ∧
    (∀ (q : String) (limit : Nat) (fe : Option String),
      (exact_search_params q limit fe false).output_fields = [] ∧
      (exact_search_params q limit fe true).output_fields = ["text"]) ∧
    (∀ (q : String) (e : List Score) (limit : Nat) (fe : Option String),
      (hybrid_search_call q e limit fe false).outputFields = [] ∧
      (hybrid_search_call q e limit fe true).outputFields = ["text"]) ∧
    (∀ h : Hit, (formatHit h).entity = h.entity.getD []) ∧
    (∀ (rs : List (List Hit)) (q st : String),
      (format_results rs q st).results.map SearchResult.entity
        = rs.flatten.map (fun h => h.entity.getD [])) := by
  refine ⟨fun q limit fe => ⟨rfl, rfl⟩, fun e limit fe => ⟨rfl, rfl⟩,
    fun q limit fe => ⟨rfl, rfl⟩, fun q e limit fe => ⟨rfl, rfl⟩,
    fun h => rfl, fun rs q st => ?_⟩
  simp [format_results, List.map_flatten, List.map_map, Function.comp_def, formatHit]

/-- C8: a backend hit with no distance field normalizes, without failing,
to a result whose score is 0.0; a batch containing such a hit formats to
a well-formed response. -/
theorem C8_missing_distance_defaults :
    (∀ (i : Option String) (e : Option (List (String × String))),
      formatHit ⟨i, none, e⟩ = ⟨i, 0, e.getD []⟩) ∧
    (∀ (q st : String) (i : Option String) (e : Option (List (String × String))),
      format_results [[⟨i, none, e⟩]] q st = ⟨q, st, [⟨i, 0, e.getD []⟩], 1⟩) :=
  ⟨fun _ _ => rfl, fun _ _ _ _ => rfl⟩

/-- C9: the exact-mode backend request carries the RAW query text as its
sparse-vector search data; only the filter predicate uses the
quote-escaped form.  At the one-character query consisting of a single
quote, the data payload is still that raw quote while the phrase
predicate contains the backslash-escaped quote. -/
theorem C9_exact_raw_query_data :
    (∀ (q : String) (limit : Nat) (fe : Option String) (rt : Bool),
      (exact_search_params q limit fe rt).data = SearchData.text q ∧
      (exact_search_params q limit fe rt).anns_field = "sparce_vector" ∧
      (exact_search_params q limit fe rt).filter = some (exact_final_filter q fe)) ∧
    (exact_search_params squote 5 none true).data = SearchData.text squote ∧
    phrase_filter squote
      = "PHRASE_MATCH(text, " ++ squote ++ (bsStr ++ squote) ++ squote ++ ")" := by
  refine ⟨fun q limit fe rt => ⟨rfl, rfl, rfl⟩, rfl, by decide⟩

/-- C10: a request whose search type lower-cases to a valid mode is
accepted and dispatched on both entry points, and the response echoes the
lower-case canonical mode name regardless of the casing supplied. -/
theorem C10_case_insensitive_mode (embed : String → List Score)
    (store : BackendCall → List (List Hit)) (q st : String) (limit : Nat)
    (rt : Bool) (tf : Option String) (fl : Option SearchFilter)
    (h : pyLower st ∈ valid_types) :
    (unified_search embed store q st limit rt tf).2.isOk = true ∧
    (unified_search embed store q st limit rt tf).2.respSearchType = some (pyLower st) ∧
    (unified_search_post embed store ⟨q, st, limit, rt, fl⟩).2.isOk = true ∧
    (unified_search_post embed store ⟨q, st, limit, rt, fl⟩).2.respSearchType
      = some (pyLower st) := by
  simp only [valid_types, List.mem_cons, List.not_mem_nil, or_false] at h
  rcases h with h | h | h | h <;>
    refine ⟨?_, ?_, ?_, ?_⟩ <;>
      simp [unified_search, unified_search_post, h, mkOk, ApiResponse.isOk,
        ApiResponse.respSearchType, perform_hybrid_search, perform_bm25_search,
        perform_semantic_search, perform_exact_search, format_results, valid_types]

/-- C10, witness: the upper-cased mode "HYBRID" is accepted and echoed as
"hybrid". -/
theorem C10_witness :
    (pyLower "HYBRID" ∈ valid_types) ∧
    (unified_search embed0 store0 "q" "HYBRID" 10 true none).2.respSearchType
      = some (pyLower "HYBRID") :=
  ⟨by decide,
    (C10_case_insensitive_mode embed0 store0 "q" "HYBRID" 10 true none none (by decide)).2.1⟩

end OpenPecha

